import Mathlib

/-!
Verification development for the retrieval-and-answering pipeline of the
`AI_with_local_RAG_and_Ollama` repository.

The Python sources are shallowly embedded:
* `scripts/utils.py` : `assign_topic`, `get_vector_store_by_filename`,
  `get_vector_store_by_topic`;
* `scripts/rag_pipeline.py` : `RAGPipeline.answer_question`;
* `scripts/preprocessing.py` : `DocumentPreprocessor.load_and_split_file` and the
  partition assignment of `load_or_build_vectorstores`;
* `scripts/config.py` : the `instructions` mapping.

Python strings are embedded as `String` (a `List Char` wrapper), Python `None`
for an optional string argument as `Option String`, an uncaught Python exception
as `Except.error : Except PyErr _`, and the fallible collaborators (the two
classifier chains, the vector stores and the synthesis chain) as functions
returning `Except String _` where `Except.error` means the collaborator raised.
Every call of a collaborator is additionally recorded in an event trace so that
claims about which collaborators are invoked can be stated.
Cosine distances are embedded as rationals.
-/

/-! ## Python string primitives used by the sources -/

/-- Lowercasing of one character as Python `str.lower` acts on ASCII text
(uppercase ASCII letters are shifted by 32, everything else is unchanged).
All strings handled by this repository (file names, topic labels, the literals
compared against) are ASCII. -/
def pyCharLower (c : Char) : Char :=
  if 65 ≤ c.toNat ∧ c.toNat ≤ 90 then Char.ofNat (c.toNat + 32) else c

/-- Embedding of Python `s.lower()` on ASCII strings: characterwise lowering. -/
def pyLower (s : String) : String :=
  ⟨s.toList.map pyCharLower⟩

/-- Embedding of Python `s.endswith(suffix)`: `suffix` is a suffix of `s`. -/
def pyEndsWith (s suffix : String) : Bool :=
  suffix.toList.isSuffixOf s.toList

/-- Truthiness of a Python optional-string argument: `None` and the empty
string are falsy, every other string is truthy. -/
def truthy : Option String → Bool
  | none => false
  | some s => s != ""

/-- Index of the last occurrence of `c` in the list, if any
(the helper behind Python `str.rfind`). -/
def lastIndexOf (c : Char) : List Char → Option Nat
  | [] => none
  | x :: xs =>
    match lastIndexOf c xs with
    | some j => some (j + 1)
    | none => if x = c then some 0 else none

/-- Embedding of Python `str.rfind` for a single character: the index of the
last occurrence, or `-1` when the character does not occur. -/
def rfind (cs : List Char) (c : Char) : Int :=
  match lastIndexOf c cs with
  | some i => (i : Int)
  | none => -1

/-- Embedding of `os.path.splitext` (posixpath): split at the last dot of the
last path component, unless every character of that component before the dot is
itself a dot, in which case the extension is empty. -/
def splitext (p : String) : String × String :=
  let cs := p.toList
  let sepIndex := rfind cs '/'
  let dotIndex := rfind cs '.'
  if dotIndex > sepIndex ∧
      ((cs.take dotIndex.toNat).drop (sepIndex + 1).toNat).any (fun c => c != '.') then
    (⟨cs.take dotIndex.toNat⟩, ⟨cs.drop dotIndex.toNat⟩)
  else
    (p, "")

/-- Embedding of `os.path.basename` (posixpath): everything after the last
slash. -/
def basename (p : String) : String :=
  let cs := p.toList
  ⟨cs.drop ((rfind cs '/') + 1).toNat⟩

/-! ## Data model -/

/-- A retrievable chunk: its text plus the metadata dict written by
`load_and_split_file` (keys `source` and `topic`). -/
structure Chunk where
  text : String
  source : String
  topic : String
deriving DecidableEq

/-- The two vector-store partitions built by `load_or_build_vectorstores`:
`pdf_store` (Google embeddings) and `nonpdf_store` (Hugging Face embeddings). -/
inductive StoreId
  | pdf
  | nonpdf
deriving DecidableEq

/-- The metadata filter passed to `similarity_search_with_score`; the source
only ever builds a single equality predicate, on `source` or on `topic`. -/
inductive MetaFilter
  | source (filename : String)
  | topic (t : String)
deriving DecidableEq

/-- An uncaught Python runtime error escaping `answer_question`. -/
inductive PyErr
  | attributeError (msg : String)
deriving DecidableEq

/-- The record `\x7bresult: string\x7d` returned by `answer_question`. -/
structure Answer where
  result : String
deriving DecidableEq

/-- One collaborator invocation performed while `answer_question` runs. -/
inductive Event
  | qcCall (query : String)
  | tcCall (query : String)
  | searchCall (store : StoreId) (query : String) (k : Nat) (filter_by : Option MetaFilter)
  | synthCall (instruction : String) (docs : List Chunk) (query : String)
deriving DecidableEq

/-- The collaborators of `RAGPipeline` (question classifier chain, topic
classifier chain, the similarity search of the selected store, and the
`RetrievalQA` synthesis chain); `Except.error` means the call raised. -/
structure Collab where
  questionClassifier : String → Except String String
  topicClassifier : String → Except String String
  search : StoreId → String → Nat → Option MetaFilter → Except String (List (Chunk × ℚ))
  synthesize : String → List Chunk → String → Except String String

/-! ## `scripts/utils.py` -/

/-- Embedding of `utils.assign_topic`: file-extension suffix to topic label. -/
def assign_topic (path : String) : String :=
  if pyEndsWith path ".pdf" then "Technology"
  else if pyEndsWith path ".txt" then "People"
  else if pyEndsWith path ".html" then "Science"
  else if pyEndsWith path ".json" then "Literature"
  else "Other"

/-- Embedding of `utils.get_vector_store_by_filename`:
`ext = os.path.splitext(filename)[1].lower()`, PDF extension selects the
`pdf_store`, everything else the `nonpdf_store`. -/
def get_vector_store_by_filename (filename : String) : StoreId :=
  let ext := pyLower (splitext filename).2
  if ext = ".pdf" then StoreId.pdf else StoreId.nonpdf

/-- Embedding of `utils.get_vector_store_by_topic`. The source immediately
evaluates `topic.lower()`; when the pipeline passes `topic = None` (Python
`NoneType`), that attribute access raises, which the embedding records as
`Except.error`. -/
def get_vector_store_by_topic (topic : Option String) : Except PyErr StoreId :=
  match topic with
  | none => Except.error (PyErr.attributeError "NoneType object has no attribute lower")
  | some t => Except.ok (if pyLower t = "technology" then StoreId.pdf else StoreId.nonpdf)

/-- Whether a chunk satisfies a metadata filter. Modelled from the spec:
the Index Store collaborator applies the filter as an exact equality match on
the named metadata key (spec section 4.2: a filter is either empty or a single
equality predicate). -/
def matchesFilter (f : Option MetaFilter) (c : Chunk) : Bool :=
  match f with
  | none => true
  | some (MetaFilter.source s) => c.source == s
  | some (MetaFilter.topic t) => c.topic == t

/-! ## `scripts/config.py` : the instruction mapping -/

/-- The `Factual` entry of `config.instructions`. -/
def factualInstruction : String :=
  "\n    Your task is to answer the question based ONLY on the provided context. \n    Extract specific, accurate information directly from the text. \n    If the answer is not found, clearly state that the information is unavailable. \n    Provide a complete and well-formed answer in full sentences.\n    "

/-- The `Interpretive` entry of `config.instructions`. -/
def interpretiveInstruction : String :=
  "\n    Your task is to provide a thoughtful interpretive answer by synthesizing the information in the provided context. \n    Draw meaningful connections, explain implications, and summarize broader themes or significance. \n    Make your answer clear, coherent, and complete, even if the information is scattered.\n    "

/-- The `config.instructions` dict, as an association list. -/
def instructions : List (String × String) :=
  [("Factual", factualInstruction), ("Interpretive", interpretiveInstruction)]

/-- Python `dict.get(key, default)` on a string-keyed association list. -/
def dictGet (d : List (String × String)) (key dflt : String) : String :=
  match d.find? (fun p => p.1 == key) with
  | some p => p.2
  | none => dflt

/-- Embedding of line 86 of `rag_pipeline.py`:
`self.instructions.get(question_type, self.instructions["Interpretive"])`
(in `main.py` the pipeline is constructed with `config.instructions`). -/
def instruction_text (question_type : String) : String :=
  dictGet instructions question_type (dictGet instructions "Interpretive" "")

/-! ## Fixed result messages of `answer_question` -/

/-- The out-of-domain message returned when the resolved topic is `Other`
(the Python source spreads it over a line continuation, hence the run of
spaces). -/
def outOfDomainMessage : String :=
  "Your question falls under the topic category \u0027Other\u0027, which is outside of the covered document topics.                                Try asking a question whose topic falls under one of [\u0027Technology\u0027, \u0027Science\u0027, \u0027People\u0027, \u0027Literature\u0027]."

/-- The fixed message returned when the similarity search raises. -/
def retrievalErrorMessage : String :=
  "There was an error retrieving documents."

/-- The fixed message returned when no retrieved chunk survives the relevance
threshold. -/
def noRelevantMessage : String :=
  "Sorry, I couldn\u0027t find any documents related to your question. Please try asking something else or check the document collection to see which topics are likely covered."

/-- The fixed message returned when the synthesis chain raises. -/
def synthesisErrorMessage : String :=
  "Sorry, I was unable to process your request."

/-! ## `RAGPipeline.answer_question` -/

/-- The relevance threshold of line 74 of `rag_pipeline.py` (cosine distance,
scale 0 to 2). -/
def similarity_threshold : ℚ := mkRat 1 2

/-- Line 75 of `rag_pipeline.py`:
`docs = [doc for doc, score in scored_docs if score <= similarity_threshold]`. -/
def filterByThreshold (scored_docs : List (Chunk × ℚ)) : List Chunk :=
  (scored_docs.filter (fun p => p.2 ≤ similarity_threshold)).map Prod.fst

/-- Lines 30 to 36: infer the question type when the argument is falsy; a
raising classifier defaults it to `Interpretive`; classifier output is
stripped. -/
def resolveQuestionType (C : Collab) (query : String) (question_type : Option String) :
    String × List Event :=
  if truthy question_type then (question_type.getD "", [])
  else
    match C.questionClassifier query with
    | Except.ok s => (s.trim, [Event.qcCall query])
    | Except.error _ => ("Interpretive", [Event.qcCall query])

/-- Lines 40 to 46: infer the topic when neither a filename nor a topic was
given; a raising classifier leaves the topic as `None`; classifier output is
stripped. -/
def resolveTopic (C : Collab) (query : String) (filename topic : Option String) :
    Option String × List Event :=
  if truthy filename = false ∧ truthy topic = false then
    match C.topicClassifier query with
    | Except.ok s => (some s.trim, [Event.tcCall query])
    | Except.error _ => (none, [Event.tcCall query])
  else (topic, [])

/-- Line 50: `topic and topic.lower() == "other"`. -/
def isOther (topic : Option String) : Bool :=
  truthy topic && (pyLower (topic.getD "") == "other")

/-- Lines 57 to 62: choose the store and the metadata filter. A truthy
filename selects by filename with a `source` equality filter; otherwise the
store is chosen by `get_vector_store_by_topic` (which raises on `None`) and a
truthy topic becomes a `topic` equality filter. -/
def route (filename topic : Option String) : Except PyErr (StoreId × Option MetaFilter) :=
  if truthy filename then
    Except.ok (get_vector_store_by_filename (filename.getD ""),
      some (MetaFilter.source (filename.getD "")))
  else
    match get_vector_store_by_topic topic with
    | Except.error e => Except.error e
    | Except.ok store =>
        Except.ok (store, if truthy topic then some (MetaFilter.topic (topic.getD "")) else none)

/-- Lines 66 to 105: query the selected store, filter by the relevance
threshold, and synthesize; retrieval and synthesis errors are converted to
fixed messages. -/
def retrieveAndAnswer (C : Collab) (query : String) (question_type : String)
    (store : StoreId) (filter_by : Option MetaFilter) (k : Nat) : Answer × List Event :=
  match C.search store query k filter_by with
  | Except.error _ => (⟨retrievalErrorMessage⟩, [Event.searchCall store query k filter_by])
  | Except.ok scored_docs =>
    if (filterByThreshold scored_docs).isEmpty then
      (⟨noRelevantMessage⟩, [Event.searchCall store query k filter_by])
    else
      match C.synthesize (instruction_text question_type) (filterByThreshold scored_docs) query with
      | Except.ok answer =>
          (⟨answer⟩,
           [Event.searchCall store query k filter_by,
            Event.synthCall (instruction_text question_type) (filterByThreshold scored_docs) query])
      | Except.error _ =>
          (⟨synthesisErrorMessage⟩,
           [Event.searchCall store query k filter_by,
            Event.synthCall (instruction_text question_type) (filterByThreshold scored_docs) query])

/-- Embedding of `RAGPipeline.answer_question`. The first component is the
returned record (or the uncaught Python error), the second the trace of
collaborator invocations in program order. -/
def answerQuestion (C : Collab) (query : String)
    (filename topic question_type : Option String) (k : Nat) :
    Except PyErr Answer × List Event :=
  let qe := resolveQuestionType C query question_type
  let te := resolveTopic C query filename topic
  let evs := qe.2 ++ te.2
  if isOther te.1 then
    (Except.ok ⟨outOfDomainMessage⟩, evs)
  else
    match route filename te.1 with
    | Except.error e => (Except.error e, evs)
    | Except.ok sf =>
        let ra := retrieveAndAnswer C query qe.1 sf.1 sf.2 k
        (Except.ok ra.1, evs ++ ra.2)

/-- Two sequential calls of `answer_question` on the same pipeline object with
the same arguments. The method body of `answer_question` binds only local
variables and never assigns to a field of `self`, so the embedding threads no
state between the calls. -/
def answer_question_twice (C : Collab) (query : String)
    (filename topic question_type : Option String) (k : Nat) :
    (Except PyErr Answer × List Event) × (Except PyErr Answer × List Event) :=
  (answerQuestion C query filename topic question_type k,
   answerQuestion C query filename topic question_type k)

/-- Is the event a similarity-search invocation? -/
def isSearchEvent : Event → Bool
  | Event.searchCall _ _ _ _ => true
  | _ => false

/-- Is the event a synthesis-chain invocation? -/
def isSynthEvent : Event → Bool
  | Event.synthCall _ _ _ => true
  | _ => false

/-- The similarity-search invocations of a trace. -/
def searchEvents (tr : List Event) : List Event :=
  tr.filter isSearchEvent

/-- The synthesis-chain invocations of a trace. -/
def synthEvents (tr : List Event) : List Event :=
  tr.filter isSynthEvent

/-! ## `scripts/preprocessing.py` -/

/-- Langchain `split_documents` at the level used here: the splitter cuts each
text into pieces and every piece inherits the metadata of its source document
(collaborator behaviour of `RecursiveCharacterTextSplitter`). -/
def split_documents (splitter : String → List String) (docs : List Chunk) : List Chunk :=
  docs.flatMap (fun d => (splitter d.text).map (fun t => Chunk.mk t d.source d.topic))

/-- Embedding of `DocumentPreprocessor.load_and_split_file`. The format
loaders are collaborators producing the raw page texts `loaderTexts`; an
unsupported extension raises `ValueError`; every produced document gets
`source = basename path` and `topic = assign_topic (basename path)`; JSON files
are pre-chunked, all other formats go through the splitter. -/
def load_and_split_file (loaderTexts : List String) (splitter : String → List String)
    (path : String) : Except String (List Chunk) :=
  if pyEndsWith path ".pdf" || pyEndsWith path ".txt" ||
      pyEndsWith path ".html" || pyEndsWith path ".json" then
    let topic := assign_topic (basename path)
    let docs := loaderTexts.map (fun text => Chunk.mk text (basename path) topic)
    if pyEndsWith path ".json" then Except.ok docs
    else Except.ok (split_documents splitter docs)
  else
    Except.error ("Skipping unsupported file type: " ++ path)

/-- The partition to which `load_or_build_vectorstores` (line 127) assigns the
chunks of a file: `filename.lower().endswith(".pdf")` selects the PDF store. -/
def ingestionPartition (filename : String) : StoreId :=
  if pyEndsWith (pyLower filename) ".pdf" then StoreId.pdf else StoreId.nonpdf

/-! ## Concrete collaborators and data used by witnesses -/

/-- A chunk used in witness statements. -/
def chunkA : Chunk := Chunk.mk "tesla facts" "people.txt" "People"

/-- A second chunk used in witness statements. -/
def chunkB : Chunk := Chunk.mk "other text" "people.txt" "People"

/-- A scored retrieval result with one chunk exactly at the threshold and one
strictly above it. -/
def scoredSample : List (Chunk × ℚ) := [(chunkA, mkRat 1 2), (chunkB, mkRat 7 10)]

/-- A collaborator assembly whose calls all succeed. -/
def sampleCollab : Collab :=
  ⟨fun _ => Except.ok "Factual",
   fun _ => Except.ok "People",
   fun _ _ _ _ => Except.ok [(chunkA, mkRat 3 10)],
   fun _ _ _ => Except.ok "final answer"⟩

/-- A collaborator assembly whose topic classifier raises. -/
def crashingTopicCollab : Collab :=
  ⟨fun _ => Except.ok "Factual",
   fun _ => Except.error "ollama backend unavailable",
   fun _ _ _ _ => Except.ok [],
   fun _ _ _ => Except.ok "final answer"⟩

/-- A collaborator assembly whose question-type classifier raises. -/
def crashingQuestionCollab : Collab :=
  ⟨fun _ => Except.error "ollama backend unavailable",
   fun _ => Except.ok "People",
   fun _ _ _ _ => Except.ok [(chunkA, mkRat 3 10)],
   fun _ _ _ => Except.ok "final answer"⟩

/-- A collaborator assembly returning the fixed scored list `scoredSample`. -/
def thresholdCollab : Collab :=
  ⟨fun _ => Except.ok "Factual",
   fun _ => Except.ok "People",
   fun _ _ _ _ => Except.ok scoredSample,
   fun _ _ _ => Except.ok "final answer"⟩

/-! ## Helper lemmas about the event trace -/

theorem searchEvents_append (l₁ l₂ : List Event) :
    searchEvents (l₁ ++ l₂) = searchEvents l₁ ++ searchEvents l₂ := by
  simp [searchEvents]

theorem synthEvents_append (l₁ l₂ : List Event) :
    synthEvents (l₁ ++ l₂) = synthEvents l₁ ++ synthEvents l₂ := by
  simp [synthEvents]

theorem searchEvents_resolveQuestionType (C : Collab) (query : String)
    (question_type : Option String) :
    searchEvents (resolveQuestionType C query question_type).2 = [] := by
  unfold resolveQuestionType
  split
  · rfl
  · split <;> rfl

theorem synthEvents_resolveQuestionType (C : Collab) (query : String)
    (question_type : Option String) :
    synthEvents (resolveQuestionType C query question_type).2 = [] := by
  unfold resolveQuestionType
  split
  · rfl
  · split <;> rfl

theorem searchEvents_resolveTopic (C : Collab) (query : String)
    (filename topic : Option String) :
    searchEvents (resolveTopic C query filename topic).2 = [] := by
  unfold resolveTopic
  split
  · split <;> rfl
  · rfl

theorem synthEvents_resolveTopic (C : Collab) (query : String)
    (filename topic : Option String) :
    synthEvents (resolveTopic C query filename topic).2 = [] := by
  unfold resolveTopic
  split
  · split <;> rfl
  · rfl

theorem searchEvents_retrieveAndAnswer (C : Collab) (query question_type : String)
    (store : StoreId) (filter_by : Option MetaFilter) (k : Nat) :
    searchEvents (retrieveAndAnswer C query question_type store filter_by k).2 =
      [Event.searchCall store query k filter_by] := by
  unfold retrieveAndAnswer
  split
  · rfl
  · split
    · rfl
    · split <;> rfl

theorem mem_synth_retrieveAndAnswer (C : Collab) (query question_type : String)
    (store : StoreId) (filter_by : Option MetaFilter) (k : Nat)
    (i : String) (d : List Chunk) (q : String)
    (h : Event.synthCall i d q ∈ (retrieveAndAnswer C query question_type store filter_by k).2) :
    i = instruction_text question_type ∧
      ∃ scored, C.search store query k filter_by = Except.ok scored ∧
        d = filterByThreshold scored := by
  unfold retrieveAndAnswer at h
  split at h
  · simp at h
  · rename_i scored hs
    split at h
    · simp at h
    · split at h <;>
      · simp only [List.mem_cons, List.mem_singleton, List.not_mem_nil, or_false] at h
        rcases h with h | h
        · exact absurd h (by simp)
        · rw [Event.synthCall.injEq] at h
          exact ⟨h.1, scored, hs, h.2.1⟩

/-! ## Claim theorems -/

/-- Claim C1 (code_bug): the spec says no error ever crosses the
`answer_question` boundary, but the code violates this. Concretely: with no
filename, no topic, and a topic classifier that raises, the caught classifier
failure leaves `topic = None`; the routing step then calls
`get_vector_store_by_topic(None)`, whose `topic.lower()` raises an uncaught
`AttributeError` that escapes `answer_question`. -/
theorem answer_question_raises_attribute_error :
    (answerQuestion crashingTopicCollab "hello" none none (some "Factual") 5).1 =
      Except.error (PyErr.attributeError "NoneType object has no attribute lower") := by
  rfl

/-- Claim C2 (code_bug): the question-type half of the claim holds — when the
question classifier raises, the pipeline continues with the `Interpretive`
default and still queries a store (first conjunct: the full run, including the
synthesis call carrying the Interpretive instruction). The topic half fails —
when the topic classifier raises, the pipeline does not continue with an empty
filter: it crashes inside `get_vector_store_by_topic(None)` before any store
is queried (second conjunct). -/
theorem classifier_fallback_and_crash :
    (answerQuestion crashingQuestionCollab "q" (some "a.txt") none none 3 =
      (Except.ok ⟨"final answer"⟩,
       [Event.qcCall "q",
        Event.searchCall StoreId.nonpdf "q" 3 (some (MetaFilter.source "a.txt")),
        Event.synthCall interpretiveInstruction [chunkA] "q"])) ∧
    (answerQuestion crashingTopicCollab "q" none none (some "Factual") 3 =
      (Except.error (PyErr.attributeError "NoneType object has no attribute lower"),
       [Event.tcCall "q"])) := by
  exact ⟨rfl, rfl⟩

/-- Claim C9: `answer_question` is a deterministic function of its inputs and
of the collaborator behaviour. The method body binds only local variables and
never assigns to any field of `self`, so the embedding threads no mutable
state; two sequential calls with identical arguments return identical results
(same record and same collaborator-invocation trace). -/
theorem answer_question_idempotent (C : Collab) (query : String)
    (filename topic question_type : Option String) (k : Nat) :
    (answer_question_twice C query filename topic question_type k).1 =
      (answer_question_twice C query filename topic question_type k).2 := by
  rfl

/-- Claim C6: whenever the resolved topic (explicit, or inferred by the topic
classifier) equals the sentinel `Other`, `answer_question` returns the fixed
out-of-domain message and the trace contains no similarity-search invocation
and no synthesis invocation. -/
theorem other_short_circuit (C : Collab) (query : String)
    (filename topic question_type : Option String) (k : Nat)
    (h : (resolveTopic C query filename topic).1 = some "Other") :
    (answerQuestion C query filename topic question_type k).1 =
        Except.ok ⟨outOfDomainMessage⟩ ∧
      searchEvents (answerQuestion C query filename topic question_type k).2 = [] ∧
      synthEvents (answerQuestion C query filename topic question_type k).2 = [] := by
  have hio : isOther (resolveTopic C query filename topic).1 = true := by
    rw [h]; rfl
  refine ⟨?_, ?_, ?_⟩
  · simp only [answerQuestion, hio, if_true]
  · simp only [answerQuestion, hio, if_true]
    rw [searchEvents_append, searchEvents_resolveQuestionType, searchEvents_resolveTopic]
    rfl
  · simp only [answerQuestion, hio, if_true]
    rw [synthEvents_append, synthEvents_resolveQuestionType, synthEvents_resolveTopic]
    rfl

/-- Witness for `other_short_circuit` at a concrete input (explicit topic
`Other`). -/
theorem other_short_circuit_witness :
    (answerQuestion sampleCollab "q" none (some "Other") (some "Factual") 3).1 =
      Except.ok ⟨outOfDomainMessage⟩ :=
  (other_short_circuit sampleCollab "q" none (some "Other") (some "Factual") 3 rfl).1

/-- Counterexample to claim C3 as stated: with an explicit filename AND the
explicit topic `Other`, the out-of-domain short-circuit fires first, so the
run returns the out-of-domain message, never selects a partition and never
issues a search with the filter on `source` — the filename does not take
precedence over this particular topic value. -/
theorem filename_with_other_topic_counterexample :
    (answerQuestion sampleCollab "q" (some "a.pdf") (some "Other") (some "Factual") 3).1 =
        Except.ok ⟨outOfDomainMessage⟩ ∧
      searchEvents
        (answerQuestion sampleCollab "q" (some "a.pdf") (some "Other") (some "Factual") 3).2 =
        [] := by
  exact ⟨rfl, rfl⟩

/-- Claim C3 as amended: for every call with an explicit (truthy) filename
whose topic does not trip the `Other` short-circuit, the filename alone
determines the queried store (via `get_vector_store_by_filename`) and the
filter is the equality filter on `source == filename` — for every topic value,
explicit or inferred, in particular when the topic would resolve to the other
partition. -/
theorem filename_precedence (C : Collab) (query fn : String)
    (topic question_type : Option String) (k : Nat)
    (hfn : fn ≠ "") (hot : isOther topic = false) :
    searchEvents (answerQuestion C query (some fn) topic question_type k).2 =
      [Event.searchCall (get_vector_store_by_filename fn) query k
        (some (MetaFilter.source fn))] := by
  have htr : truthy (some fn) = true := by
    simp [truthy, hfn]
  have hrt : resolveTopic C query (some fn) topic = (topic, []) := by
    unfold resolveTopic
    rw [htr]
    simp
  have hroute : route (some fn) topic =
      Except.ok (get_vector_store_by_filename fn, some (MetaFilter.source fn)) := by
    unfold route
    rw [htr]
    rfl
  simp only [answerQuestion, hrt, hot, hroute, Bool.false_eq_true, if_false]
  rw [searchEvents_append, searchEvents_append, searchEvents_resolveQuestionType,
    searchEvents_retrieveAndAnswer]
  rfl

/-- Witness for `filename_precedence`: a PDF filename together with a topic
that maps to the other (non-PDF) partition; the PDF partition is queried with
the `source` filter. -/
theorem filename_precedence_witness :
    searchEvents (answerQuestion sampleCollab "q" (some "a.pdf") (some "People")
        (some "Factual") 3).2 =
      [Event.searchCall (get_vector_store_by_filename "a.pdf") "q" 3
        (some (MetaFilter.source "a.pdf"))] :=
  filename_precedence sampleCollab "q" "a.pdf" (some "People") (some "Factual") 3
    (by decide) (by decide)

theorem not_synth_mem_of_synthEvents_nil {l : List Event} (h : synthEvents l = [])
    (i : String) (d : List Chunk) (q : String) : Event.synthCall i d q ∉ l := by
  intro hm
  have hmem : Event.synthCall i d q ∈ synthEvents l := by
    simp [synthEvents, List.mem_filter, hm, isSynthEvent]
  rw [h] at hmem
  simp at hmem

/-- Claim C10: with an explicit topic and no filename, partition selection and
the `Other` short-circuit are case-insensitive but the retrieval filter keeps
the exact caller string. For any topic that lowercases to `technology` without
being the canonical label `Technology`, the PDF partition (the one holding all
`Technology` chunks) is queried, yet the equality filter on `topic` matches no
chunk carrying one of the four canonical ingested labels. -/
theorem topic_case_mismatch (C : Collab) (query t : String)
    (question_type : Option String) (k : Nat)
    (ht : t ≠ "") (hlow : pyLower t = "technology") (hne : t ≠ "Technology") :
    searchEvents (answerQuestion C query none (some t) question_type k).2 =
        [Event.searchCall StoreId.pdf query k (some (MetaFilter.topic t))] ∧
      (∀ c : Chunk,
        c.topic ∈ (["Technology", "People", "Science", "Literature"] : List String) →
        matchesFilter (some (MetaFilter.topic t)) c = false) := by
  have htr : truthy (some t) = true := by
    simp [truthy, ht]
  have hrt : resolveTopic C query none (some t) = (some t, []) := by
    unfold resolveTopic
    rw [htr]
    simp
  have hio : isOther (some t) = false := by
    unfold isOther
    rw [htr]
    simp only [Option.getD_some, hlow]
    rfl
  have h0 : truthy (none : Option String) = false := rfl
  have hroute : route none (some t) = Except.ok (StoreId.pdf, some (MetaFilter.topic t)) := by
    simp [route, get_vector_store_by_topic, hlow, htr, h0]
  constructor
  · simp only [answerQuestion, hrt, hio, Bool.false_eq_true, if_false, hroute]
    rw [searchEvents_append, searchEvents_append, searchEvents_resolveQuestionType,
      searchEvents_retrieveAndAnswer]
    rfl
  · intro c hc
    simp only [List.mem_cons, List.not_mem_nil, or_false] at hc
    have hct : c.topic ≠ t := by
      rcases hc with h | h | h | h <;> rw [h] <;> intro he
      · exact hne he.symm
      · rw [← he] at hlow
        exact absurd hlow (by decide)
      · rw [← he] at hlow
        exact absurd hlow (by decide)
      · rw [← he] at hlow
        exact absurd hlow (by decide)
    have hmf : matchesFilter (some (MetaFilter.topic t)) c = (c.topic == t) := rfl
    rw [hmf, beq_eq_false_iff_ne]
    exact hct

/-- Witness for `topic_case_mismatch` at topic `technology`: the PDF partition
is selected while a chunk ingested with the canonical label `Technology` fails
the exact-equality filter. -/
theorem topic_case_mismatch_witness :
    searchEvents (answerQuestion sampleCollab "q" none (some "technology")
        (some "Factual") 3).2 =
        [Event.searchCall StoreId.pdf "q" 3 (some (MetaFilter.topic "technology"))] ∧
      matchesFilter (some (MetaFilter.topic "technology"))
        (Chunk.mk "x" "a.pdf" "Technology") = false := by
  have h := topic_case_mismatch sampleCollab "q" "technology" (some "Factual") 3
    (by decide) (by decide) (by decide)
  exact ⟨h.1, h.2 (Chunk.mk "x" "a.pdf" "Technology") (by simp)⟩

/-- Claim C5: the relevance filtering of `answer_question` keeps exactly the
chunks whose distance is at most the threshold 1/2 — a chunk at exactly 1/2 is
retained and one strictly above is dropped (first conjunct, stated as a
membership characterisation); when the retrieval returns `scored` and nothing
survives, the fixed no-relevant-documents message is returned (second
conjunct); and any synthesis invocation receives exactly the surviving chunks
(third conjunct). -/
theorem threshold_inclusive (C : Collab) (query fn : String)
    (question_type : Option String) (k : Nat) (scored : List (Chunk × ℚ))
    (hfn : fn ≠ "")
    (hs : ∀ st q n f, C.search st q n f = Except.ok scored) :
    (∀ c : Chunk, c ∈ filterByThreshold scored ↔
        ∃ s, (c, s) ∈ scored ∧ s ≤ similarity_threshold) ∧
      (filterByThreshold scored = [] →
        (answerQuestion C query (some fn) none question_type k).1 =
          Except.ok ⟨noRelevantMessage⟩) ∧
      (∀ i d q, Event.synthCall i d q ∈
          (answerQuestion C query (some fn) none question_type k).2 →
        d = filterByThreshold scored) := by
  have htr : truthy (some fn) = true := by
    simp [truthy, hfn]
  have hrt : resolveTopic C query (some fn) none = (none, []) := by
    unfold resolveTopic
    rw [htr]
    simp
  have hio : isOther (none : Option String) = false := rfl
  have hroute : route (some fn) none =
      Except.ok (get_vector_store_by_filename fn, some (MetaFilter.source fn)) := by
    unfold route
    rw [htr]
    rfl
  refine ⟨?_, ?_, ?_⟩
  · intro c
    simp only [filterByThreshold, List.mem_map, List.mem_filter, decide_eq_true_eq]
    constructor
    · rintro ⟨⟨a, s⟩, ⟨hm, hle⟩, rfl⟩
      exact ⟨s, hm, hle⟩
    · rintro ⟨s, hm, hle⟩
      exact ⟨(c, s), ⟨hm, hle⟩, rfl⟩
  · intro hempty
    simp only [answerQuestion, hrt, hio, Bool.false_eq_true, if_false, hroute]
    unfold retrieveAndAnswer
    simp only [hs, hempty, List.isEmpty_nil, if_true]
  · intro i d q hmem
    simp only [answerQuestion, hrt, hio, Bool.false_eq_true, if_false, hroute,
      List.append_nil, List.nil_append] at hmem
    rcases List.mem_append.mp hmem with hmem | hmem
    · exact absurd hmem
        (not_synth_mem_of_synthEvents_nil (synthEvents_resolveQuestionType C query question_type) i d q)
    · obtain ⟨_, scored2, hs2, hd⟩ := mem_synth_retrieveAndAnswer C query
        (resolveQuestionType C query question_type).1 (get_vector_store_by_filename fn)
        (some (MetaFilter.source fn)) k i d q hmem
      rw [hs] at hs2
      rw [hd, Except.ok.inj hs2]

/-- Witness for `threshold_inclusive` on the scored list holding one chunk at
distance exactly 1/2 (kept) and one at distance 7/10 (dropped). -/
theorem threshold_inclusive_witness :
    chunkA ∈ filterByThreshold scoredSample ∧ chunkB ∉ filterByThreshold scoredSample := by
  have h := threshold_inclusive thresholdCollab "q" "people.txt" (some "Factual") 3
    scoredSample (by decide) (fun _ _ _ _ => rfl)
  refine ⟨(h.1 chunkA).mpr ⟨mkRat 1 2, ?_, ?_⟩, ?_⟩
  · simp [scoredSample]
  · rfl
  · decide

/-- Claim C8: the instruction text used at synthesis time is the entry of the
fixed mapping for the resolved question type: `Factual` and `Interpretive`
select their own entries, every other key (absent or malformed classifier
output included) falls back to the `Interpretive` instruction, and in any run
of `answer_question` with that question type the synthesis call carries
exactly that instruction text. -/
theorem instruction_lookup (key : String) :
    (key = "Factual" → instruction_text key = factualInstruction) ∧
      (key = "Interpretive" → instruction_text key = interpretiveInstruction) ∧
      (key ≠ "Factual" ∧ key ≠ "Interpretive" →
        instruction_text key = interpretiveInstruction) ∧
      (∀ (C : Collab) (query : String) (filename topic : Option String) (k : Nat)
        (i : String) (d : List Chunk) (q : String),
        key ≠ "" →
        Event.synthCall i d q ∈ (answerQuestion C query filename topic (some key) k).2 →
        i = instruction_text key) := by
  refine ⟨?_, ?_, ?_, ?_⟩
  · intro h
    rw [h]
    rfl
  · intro h
    rw [h]
    rfl
  · rintro ⟨h1, h2⟩
    have hf : ("Factual" == key) = false := beq_eq_false_iff_ne.mpr (fun he => h1 he.symm)
    have hi : ("Interpretive" == key) = false := beq_eq_false_iff_ne.mpr (fun he => h2 he.symm)
    simp [instruction_text, dictGet, instructions, List.find?, hf, hi]
  · intro C query filename topic k i d q hk hmem
    have htr : truthy (some key) = true := by
      simp [truthy, hk]
    have hq : resolveQuestionType C query (some key) = (key, []) := by
      unfold resolveQuestionType
      rw [htr]
      rfl
    simp only [answerQuestion, hq, List.nil_append] at hmem
    split at hmem
    · exact absurd hmem
        (not_synth_mem_of_synthEvents_nil (synthEvents_resolveTopic C query filename topic) i d q)
    · split at hmem
      · exact absurd hmem
          (not_synth_mem_of_synthEvents_nil (synthEvents_resolveTopic C query filename topic) i d q)
      · rcases List.mem_append.mp hmem with hmem | hmem
        · exact absurd hmem
            (not_synth_mem_of_synthEvents_nil (synthEvents_resolveTopic C query filename topic) i d q)
        · exact (mem_synth_retrieveAndAnswer C query key _ _ k i d q hmem).1

/-- Witness for `instruction_lookup`: an unknown key falls back to the
Interpretive instruction, `Factual` selects the factual one. -/
theorem instruction_lookup_witness :
    instruction_text "Banana" = interpretiveInstruction ∧
      instruction_text "Factual" = factualInstruction :=
  ⟨(instruction_lookup "Banana").2.2.1 ⟨by decide, by decide⟩,
   (instruction_lookup "Factual").1 rfl⟩

/-! ## Lemmas about the string primitives -/

theorem lastIndexOf_eq_none {c : Char} {l : List Char} (h : c ∉ l) :
    lastIndexOf c l = none := by
  induction l with
  | nil => rfl
  | cons x xs ih =>
    simp only [List.mem_cons, not_or] at h
    unfold lastIndexOf
    rw [ih h.2, if_neg (fun hxc => h.1 hxc.symm)]

theorem lastIndexOf_lt_length {c : Char} {l : List Char} {i : Nat}
    (h : lastIndexOf c l = some i) : i < l.length := by
  induction l generalizing i with
  | nil => simp [lastIndexOf] at h
  | cons x xs ih =>
    simp only [lastIndexOf] at h
    split at h
    · rename_i j hx
      injection h with h
      have := ih hx
      simp only [List.length_cons]
      omega
    · split at h
      · injection h with h
        simp only [List.length_cons]
        omega
      · exact absurd h (by simp)

theorem lastIndexOf_append_of_not_mem {c : Char} {r : List Char} (a : List Char)
    (h : c ∉ r) : lastIndexOf c (a ++ r) = lastIndexOf c a := by
  induction a with
  | nil =>
    rw [List.nil_append, lastIndexOf_eq_none h]
    rfl
  | cons x xs ih =>
    rw [List.cons_append]
    show (match lastIndexOf c (xs ++ r) with
      | some j => some (j + 1)
      | none => if x = c then some 0 else none) =
      match lastIndexOf c xs with
      | some j => some (j + 1)
      | none => if x = c then some 0 else none
    rw [ih]

theorem lastIndexOf_append_cons {c : Char} {r : List Char} (a : List Char)
    (h : c ∉ r) : lastIndexOf c (a ++ c :: r) = some a.length := by
  induction a with
  | nil =>
    simp only [List.nil_append, lastIndexOf, lastIndexOf_eq_none h, if_pos rfl]
    rfl
  | cons x xs ih =>
    rw [List.cons_append]
    show (match lastIndexOf c (xs ++ c :: r) with
      | some j => some (j + 1)
      | none => if x = c then some 0 else none) = some (x :: xs).length
    rw [ih]
    rfl

theorem list_len_four {l : List Char} (h : l.length = 4) :
    ∃ x1 x2 x3 x4, l = [x1, x2, x3, x4] := by
  rcases l with _ | ⟨x1, _ | ⟨x2, _ | ⟨x3, _ | ⟨x4, tl⟩⟩⟩⟩
  · simp at h
  · simp at h
  · simp at h
  · simp at h
  · have htl : tl = [] := by
      simp only [List.length_cons] at h
      have hz : tl.length = 0 := by omega
      exact List.length_eq_zero.mp hz
    exact ⟨x1, x2, x3, x4, by rw [htl]⟩

theorem pyEndsWith_iff (s t : String) : pyEndsWith s t = true ↔ t.toList <:+ s.toList := by
  unfold pyEndsWith
  exact List.isSuffixOf_iff_suffix

theorem basename_endsWith (p s : String) (h : pyEndsWith p s = true)
    (hs : '/' ∉ s.toList) : pyEndsWith (basename p) s = true := by
  rw [pyEndsWith_iff] at h ⊢
  obtain ⟨a, ha⟩ := h
  show s.toList <:+ p.toList.drop ((rfind p.toList '/') + 1).toNat
  rw [← ha]
  unfold rfind
  rw [lastIndexOf_append_of_not_mem a hs]
  cases hx : lastIndexOf '/' a with
  | none =>
    show s.toList <:+ (a ++ s.toList).drop ((-1 : Int) + 1).toNat
    simp
  | some j =>
    have hj : j < a.length := lastIndexOf_lt_length hx
    show s.toList <:+ (a ++ s.toList).drop ((j : Int) + 1).toNat
    have ht : ((j : Int) + 1).toNat = j + 1 := by omega
    rw [ht, List.drop_append_of_le_length (by omega)]
    exact List.suffix_append _ _

theorem assign_topic_mem (p : String)
    (h : (pyEndsWith p ".pdf" || pyEndsWith p ".txt" ||
      pyEndsWith p ".html" || pyEndsWith p ".json") = true) :
    assign_topic p ∈ (["Technology", "People", "Science", "Literature"] : List String) := by
  unfold assign_topic
  split
  · simp
  · split
    · simp
    · split
      · simp
      · split
        · simp
        · rename_i h1 h2 h3 h4
          rw [Bool.not_eq_true] at h1 h2 h3 h4
          rw [h1, h2, h3, h4] at h
          simp at h

/-- Claim C7: for every file path that ingestion accepts (the loader branch of
`load_and_split_file` does not raise), every produced chunk carries one of the
four covered topic labels; the `Other` sentinel is never assigned to an
ingested chunk. -/
theorem ingested_topic_covered (loaderTexts : List String)
    (splitter : String → List String) (path : String) (chunks : List Chunk)
    (h : load_and_split_file loaderTexts splitter path = Except.ok chunks) :
    ∀ c ∈ chunks,
      c.topic ∈ (["Technology", "People", "Science", "Literature"] : List String) := by
  intro c hc
  simp only [load_and_split_file] at h
  split at h
  case isFalse => exact absurd h (by simp)
  case isTrue hsup =>
    have hbm : (pyEndsWith (basename path) ".pdf" || pyEndsWith (basename path) ".txt" ||
        pyEndsWith (basename path) ".html" || pyEndsWith (basename path) ".json") = true := by
      simp only [Bool.or_eq_true] at hsup ⊢
      rcases hsup with ((h1 | h1) | h1) | h1
      · exact Or.inl (Or.inl (Or.inl (basename_endsWith path ".pdf" h1 (by decide))))
      · exact Or.inl (Or.inl (Or.inr (basename_endsWith path ".txt" h1 (by decide))))
      · exact Or.inl (Or.inr (basename_endsWith path ".html" h1 (by decide)))
      · exact Or.inr (basename_endsWith path ".json" h1 (by decide))
    have hb := assign_topic_mem (basename path) hbm
    split at h
    · have hchunks := Except.ok.inj h
      rw [← hchunks] at hc
      simp only [List.mem_map] at hc
      obtain ⟨t, _, rfl⟩ := hc
      exact hb
    · have hchunks := Except.ok.inj h
      rw [← hchunks] at hc
      simp only [split_documents, List.mem_flatMap, List.mem_map] at hc
      obtain ⟨d, ⟨t0, _, rfl⟩, t1, _, rfl⟩ := hc
      exact hb

/-- Witness for `ingested_topic_covered` on a concrete text file. -/
theorem ingested_topic_covered_witness :
    (Chunk.mk "body" "notes.txt" "People").topic ∈
      (["Technology", "People", "Science", "Literature"] : List String) :=
  ingested_topic_covered ["body"] (fun s => [s]) "notes.txt"
    [Chunk.mk "body" "notes.txt" "People"] rfl
    (Chunk.mk "body" "notes.txt" "People") (by simp)

theorem pyCharLower_eq_dot {c : Char} (h : pyCharLower c = Char.ofNat 46) :
    c = Char.ofNat 46 := by
  unfold pyCharLower at h
  split at h
  · rename_i hb
    exfalso
    obtain ⟨n, hn, hl, hr⟩ : ∃ n, c.toNat = n ∧ 65 ≤ n ∧ n ≤ 90 :=
      ⟨c.toNat, rfl, hb.1, hb.2⟩
    rw [hn] at h
    interval_cases n <;> exact absurd h (by decide)
  · exact h

theorem splitext_snd_suffix (p : String) : (splitext p).2.toList <:+ p.toList := by
  simp only [splitext]
  split
  · exact List.drop_suffix _ _
  · exact List.nil_suffix

theorem splitext_snd_eq {p : String} (h : (splitext p).2 ≠ "") :
    (splitext p).2.toList = p.toList.drop (rfind p.toList '.').toNat := by
  simp only [splitext] at h ⊢
  split at h
  · rename_i hc
    rw [if_pos hc]
    rfl
  · exact absurd rfl h

theorem routing_pdf_ends (f : String) (h : pyLower (splitext f).2 = ".pdf") :
    pyEndsWith (pyLower f) ".pdf" = true := by
  rw [pyEndsWith_iff]
  have hm := List.IsSuffix.map pyCharLower (splitext_snd_suffix f)
  have hlist : (splitext f).2.toList.map pyCharLower = ['.', 'p', 'd', 'f'] :=
    congrArg String.toList h
  rw [hlist] at hm
  exact hm

theorem ends_pdf_ext (f : String) (hE : pyEndsWith (pyLower f) ".pdf" = true)
    (hX : (splitext f).2 ≠ "") : pyLower (splitext f).2 = ".pdf" := by
  rw [pyEndsWith_iff] at hE
  obtain ⟨a, ha⟩ := hE
  have ha2 : a ++ ['.', 'p', 'd', 'f'] = f.toList.map pyCharLower := ha
  have hlen : a.length + 4 = f.toList.length := by
    have hl := congrArg List.length ha2
    simp only [List.length_append, List.length_map] at hl
    simpa using hl
  have h1 : (f.toList.map pyCharLower).drop a.length = ['.', 'p', 'd', 'f'] := by
    rw [← ha2, List.drop_left]
  have hdrop : (f.toList.drop a.length).map pyCharLower = ['.', 'p', 'd', 'f'] := by
    rw [List.map_drop, h1]
  have hdl : (f.toList.drop a.length).length = 4 := by
    rw [List.length_drop]
    omega
  obtain ⟨c1, c2, c3, c4, hd⟩ := list_len_four hdl
  rw [hd] at hdrop
  simp only [List.map_cons, List.map_nil, List.cons.injEq, and_true] at hdrop
  obtain ⟨e1, e2, e3, e4⟩ := hdrop
  have hc1 : c1 = '.' := pyCharLower_eq_dot e1
  have hnd : ('.' : Char) ∉ ([c2, c3, c4] : List Char) := by
    intro hm
    simp only [List.mem_cons, List.not_mem_nil, or_false] at hm
    rcases hm with hm | hm | hm
    · rw [← hm] at e2
      exact absurd e2 (by decide)
    · rw [← hm] at e3
      exact absurd e3 (by decide)
    · rw [← hm] at e4
      exact absurd e4 (by decide)
  have hsplit := (List.take_append_drop a.length f.toList).symm
  rw [hd, hc1] at hsplit
  have hlast : lastIndexOf '.' f.toList = some a.length := by
    rw [hsplit, lastIndexOf_append_cons _ hnd, List.length_take]
    congr 1
    omega
  have hrf : rfind f.toList '.' = (a.length : Int) := by
    unfold rfind
    rw [hlast]
  have hext := splitext_snd_eq hX
  rw [hrf, Int.toNat_natCast, hd] at hext
  show String.mk ((splitext f).2.toList.map pyCharLower) = ".pdf"
  rw [hext]
  simp only [List.map_cons, List.map_nil, e1, e2, e3, e4]

/-- Counterexample to claim C4 as stated: the file name `.pdf` is accepted by
ingestion (it ends in the PDF suffix) and its chunks are assigned to the PDF
partition, but `os.path.splitext` treats the name as extensionless, so
filename-based routing selects the non-PDF partition — the two
filename-to-partition mappings are not the same function. -/
theorem routing_vs_ingestion_counterexample :
    (pyEndsWith ".pdf" ".pdf" || pyEndsWith ".pdf" ".txt" ||
        pyEndsWith ".pdf" ".html" || pyEndsWith ".pdf" ".json") = true ∧
      ingestionPartition ".pdf" = StoreId.pdf ∧
      get_vector_store_by_filename ".pdf" = StoreId.nonpdf := by
  exact ⟨rfl, rfl, rfl⟩

/-- Claim C4 as amended: the routing mapping (`get_vector_store_by_filename`)
and the ingestion mapping (partition assignment of
`load_or_build_vectorstores`) agree on a filename exactly when it is not one
of the degenerate names that end in `.pdf` case-insensitively while
`os.path.splitext` finds no extension (names whose last path component is a
run of dots before `pdf`, such as `.pdf` or `..pdf`); on every other filename
— in particular every conventionally named file — the two mappings coincide. -/
theorem routing_matches_ingestion_iff (filename : String) :
    (get_vector_store_by_filename filename = ingestionPartition filename) ↔
      ¬(pyEndsWith (pyLower filename) ".pdf" = true ∧ (splitext filename).2 = "") := by
  constructor
  · intro hagree
    rintro ⟨hE, hX⟩
    have h1 : ingestionPartition filename = StoreId.pdf := by
      simp [ingestionPartition, hE]
    have h2 : get_vector_store_by_filename filename = StoreId.nonpdf := by
      simp only [get_vector_store_by_filename, hX]
      rw [if_neg (by decide)]
    rw [h1, h2] at hagree
    exact absurd hagree (by decide)
  · intro hno
    by_cases hE : pyEndsWith (pyLower filename) ".pdf" = true
    · have hX : (splitext filename).2 ≠ "" := fun hx => hno ⟨hE, hx⟩
      have hext := ends_pdf_ext filename hE hX
      simp only [get_vector_store_by_filename, ingestionPartition, hext, hE]
    · have hnotpdf : pyLower (splitext filename).2 ≠ ".pdf" :=
        fun hh => hE (routing_pdf_ends filename hh)
      rw [Bool.not_eq_true] at hE
      simp only [get_vector_store_by_filename, ingestionPartition, hE]
      rw [if_neg hnotpdf, if_neg (by simp)]

/-- Witness for `routing_matches_ingestion_iff`: on the conventional name
`report.pdf` both mappings select the PDF partition. -/
theorem routing_matches_ingestion_witness :
    get_vector_store_by_filename "report.pdf" = ingestionPartition "report.pdf" :=
  (routing_matches_ingestion_iff "report.pdf").mpr (by decide)

